import Mathlib

/-!
Verification of the cover-letter generation pipeline
(`main.py`, `cover_letter_generator.py`) against its natural-language
specification.

The development is a shallow embedding of the repository's code:

* Python string operations used by the code (`str.strip`, `str.split`,
  `str.lower`, `str.replace`, `in`, `str.endswith`, `str.startswith`) are
  embedded as executable Lean functions over `String`/`List Char` with
  structural (or fueled, but always sufficient-fuel) recursion so that the
  kernel can evaluate them on concrete inputs.  The whitespace set is the
  ASCII whitespace stripped by CPython (space, tab, LF, CR, VT, FF); the
  letters involved in the claims are ASCII, for which `Char.toLower`
  agrees with CPython `str.lower`.
* Pure fragments of the code (paragraph segmentation, document building,
  filename derivation) become Lean functions.
* Effectful boundaries (filesystem reads, backend imports, exceptions
  raised while building an artifact) are modelled by explicit oracles
  (`FileSystem`, `RenderEnv`) and `Except`-valued bodies; the `try/except`
  wrappers of the source become total functions over those oracles.
-/

namespace CoverLetterGen

/-! ## Python string primitives -/

/-- The ASCII whitespace characters stripped by CPython `str.strip()`. -/
def isPySpace (c : Char) : Bool :=
  c == ' ' || c == '\t' || c == '\n' || c == '\r' || c == '\x0b' || c == '\x0c'

/-- CPython `s.strip()`: remove leading and trailing whitespace. -/
def pyStrip (s : String) : String :=
  ⟨((s.data.dropWhile isPySpace).reverse.dropWhile isPySpace).reverse⟩

/-- CPython `s.lower()` (ASCII case mapping). -/
def pyLower (s : String) : String := ⟨s.data.map Char.toLower⟩

/-- Whether `pat` occurs as a contiguous sublist of `l`
(CPython `pat in s` on the underlying characters). -/
def listIsInfixOf (pat : List Char) : List Char → Bool
  | [] => pat.isEmpty
  | c :: rest => pat.isPrefixOf (c :: rest) || listIsInfixOf pat rest

/-- CPython `pat in s` for strings: contiguous substring containment. -/
def pyIn (pat s : String) : Bool := listIsInfixOf pat.data s.data

/-- Prepend a character to the first chunk of a chunk list
(used by the splitter below). -/
def consHead (a : Char) : List (List Char) → List (List Char)
  | [] => [[a]]
  | l :: ls => (a :: l) :: ls

/-- Greedy leftmost splitting on a separator, the semantics of CPython
`s.split(sep)` for a non-empty `sep`.  The fuel argument only bounds the
number of scan steps; since every step consumes at least one character,
fuel `= length of the input` is always sufficient (see `pySplit`). -/
def pySplitAux (sep : List Char) : Nat → List Char → List (List Char)
  | _, [] => [[]]
  | 0, l => [l]
  | Nat.succ fuel, c :: rest =>
    if sep.isPrefixOf (c :: rest) then
      [] :: pySplitAux sep fuel ((c :: rest).drop sep.length)
    else consHead c (pySplitAux sep fuel rest)

/-- CPython `s.split(sep)` for non-empty `sep` (the source only calls it
with `"\n\n"` and `"\n"`; CPython raises on an empty separator, which we
never model). -/
def pySplit (s sep : String) : List String :=
  if sep.data.isEmpty then [s]
  else (pySplitAux sep.data s.data.length s.data).map (fun l => ⟨l⟩)

/-- Replace non-overlapping occurrences of `pat`, scanning left to right,
the semantics of CPython `s.replace(pat, rep)` for non-empty `pat`.
Fueled exactly like `pySplitAux`. -/
def pyReplaceAux (pat rep : List Char) : Nat → List Char → List Char
  | _, [] => []
  | 0, l => l
  | Nat.succ fuel, c :: rest =>
    if pat.isPrefixOf (c :: rest) then
      rep ++ pyReplaceAux pat rep fuel ((c :: rest).drop pat.length)
    else c :: pyReplaceAux pat rep fuel rest

/-- CPython `s.replace(pat, rep)` for non-empty `pat` (the source only
calls it with the patterns `".txt"`, `".doc"`, `".pdf"`). -/
def pyReplace (s pat rep : String) : String :=
  if pat.data.isEmpty then s
  else ⟨pyReplaceAux pat.data rep.data s.data.length s.data⟩

/-- CPython `s.endswith(post)`. -/
def pyEndsWith (s post : String) : Bool := post.data.isSuffixOf s.data

/-- CPython `s.startswith(pre)`. -/
def pyStartsWith (s pre : String) : Bool := pre.data.isPrefixOf s.data

/-! ## Document model and the segmenter of the PDF renderer

`create_pdf_cover_letter` (main.py lines 62-76) builds its reportlab
story by splitting the letter text on `"\n\n"` and classifying each
non-blank chunk.  A chunk recognized as contact information contributes
its non-blank stripped lines (each rendered as a tightly spaced line);
any other non-blank chunk contributes one body paragraph.  We record the
resulting structure as a list of `Block`s. -/

/-- One semantic unit of the rendered letter body. -/
inductive Block where
  | Paragraph (text : String)
  | ContactBlock (lines : List String)
deriving DecidableEq

/-- The keyword list of main.py line 66:
`['email:', 'phone:', 'linkedin:']`.  Note that `'website:'` is absent. -/
def contactKeywords : List String := ["email:", "phone:", "linkedin:"]

/-- main.py line 66: `'\n' in para and any(keyword in para.lower() for
keyword in ['email:', 'phone:', 'linkedin:'])`. -/
def isContactGroup (para : String) : Bool :=
  para.data.contains '\n' && contactKeywords.any (fun kw => pyIn kw (pyLower para))

/-- main.py lines 68-72: `para.strip().split('\n')`, keeping and
stripping the non-blank lines, in order. -/
def contactLines (para : String) : List String :=
  ((pySplit (pyStrip para) "\n").map pyStrip).filter (fun l => l ≠ "")

/-- The single block contributed by one non-blank chunk
(the body of the `if`/`else` on main.py lines 66-76). -/
def blockOfGroup (para : String) : Block :=
  if isContactGroup para then Block.ContactBlock (contactLines para)
  else Block.Paragraph (pyStrip para)

/-- One iteration of the `for para in paragraphs` loop
(main.py lines 63-76): blank chunks are dropped, every other chunk
appends exactly one block. -/
def processGroup (story : List Block) (para : String) : List Block :=
  if pyStrip para ≠ "" then story ++ [blockOfGroup para] else story

/-- The segmentation performed by `create_pdf_cover_letter`
(main.py lines 62-76): split on `"\n\n"` and fold the loop body over the
chunks in order. -/
def segmentPdf (text : String) : List Block :=
  (pySplit text "\n\n").foldl processGroup []

/-- Observer: is a block a contact block? -/
def isContactBlockB : Block → Bool
  | Block.ContactBlock _ => true
  | Block.Paragraph _ => false

/-! ## Plain-text artifact

main.py lines 216-227 write the generated letter string to the `.txt`
destination verbatim (`f.write(cover_letter)`): no title line and no
re-rendering of the model. -/

/-- Contents of the plain-text artifact (main.py lines 219-220 / 225-226). -/
def plainTextArtifact (cover_letter : String) : String := cover_letter

/-! ## Word-processor (`.docx`) document

`create_pages_document` (main.py lines 90-141).  Margins are recorded in
hundredths of an inch (`Inches(0.8)` ↦ `80`), font sizes in points.
python-docx paragraphs have no alignment set unless assigned one, which
we record as `unset`. -/

inductive DocxAlign where
  | unset
  | center
  | justify
deriving DecidableEq

/-- One paragraph of the built document: its text, alignment, and the
run formatting applied to it. -/
structure DocxPara where
  text : String
  alignment : DocxAlign
  bold : Bool
  font_name : String
  size_pt : Nat
deriving DecidableEq

/-- The document produced by `create_pages_document`; margins in
hundredths of an inch. -/
structure DocxDocument where
  top_margin : Nat
  bottom_margin : Nat
  left_margin : Nat
  right_margin : Nat
  paragraphs : List DocxPara
deriving DecidableEq

/-- The title paragraph (main.py lines 109-115): centered, bold,
Times New Roman 17pt. -/
def docxTitlePara : DocxPara :=
  { text := "Cover Letter", alignment := DocxAlign.center, bold := true,
    font_name := "Times New Roman", size_pt := 17 }

/-- The empty spacing paragraph after the title (main.py line 118).
It has no runs, so the run-formatting fields are vacuous. -/
def docxSpacerPara : DocxPara :=
  { text := "", alignment := DocxAlign.unset, bold := false,
    font_name := "", size_pt := 0 }

/-- The document built inside the `try` block of `create_pages_document`
(main.py lines 98-133): margins 0.8in top/bottom and 1.0in left/right,
title, spacer, then one justified Times New Roman 12pt paragraph per
non-blank `"\n\n"`-chunk of the letter text.  There is no contact-line
handling in this renderer. -/
def create_pages_document_build (cover_letter_text : String) : DocxDocument :=
  { top_margin := 80, bottom_margin := 80, left_margin := 100, right_margin := 100,
    paragraphs := docxTitlePara :: docxSpacerPara ::
      (pySplit cover_letter_text "\n\n").filterMap (fun para =>
        if pyStrip para ≠ "" then
          some { text := pyStrip para, alignment := DocxAlign.justify, bold := false,
                 font_name := "Times New Roman", size_pt := 12 }
        else none) }

/-! ## Renderer failure boundaries

Both renderers wrap their whole body in
`try ... except ImportError ... except Exception` and return a `Bool`
(main.py lines 15-87 and 92-141).  The availability of the backend
module and whether artifact construction raises are modelled by an
oracle `RenderEnv`; the body is an `Except`-valued computation and the
exported function is its totalized wrapper. -/

/-- A Python exception as seen by the two `except` clauses. -/
inductive PyError where
  | importError
  | runtimeError (msg : String)
deriving DecidableEq

/-- Oracle for the effectful parts of the two renderers. -/
structure RenderEnv where
  reportlab_available : Bool
  pdf_build_error : Option String
  docx_available : Bool
  docx_save_error : Option String

/-- The `try` body of `create_pdf_cover_letter`: import reportlab
(main.py lines 16-20), build the story from the segmented text, and
build the PDF (line 79), which may raise. -/
def create_pdf_body (env : RenderEnv) (cover_letter_text : String) :
    Except PyError (List Block) :=
  if env.reportlab_available = false then Except.error PyError.importError
  else
    match env.pdf_build_error with
    | some m => Except.error (PyError.runtimeError m)
    | none => Except.ok (segmentPdf cover_letter_text)

/-- `create_pdf_cover_letter` (main.py lines 13-87): the body with both
`except` clauses mapped to `False`, success to `True`. -/
def create_pdf_cover_letter (env : RenderEnv) (cover_letter_text : String) : Bool :=
  match create_pdf_body env cover_letter_text with
  | Except.ok _ => true
  | Except.error _ => false

/-- The `try` body of `create_pages_document`: import python-docx
(main.py lines 93-95), build the document, and save it (line 133),
which may raise. -/
def create_pages_document_body (env : RenderEnv) (cover_letter_text : String) :
    Except PyError DocxDocument :=
  if env.docx_available = false then Except.error PyError.importError
  else
    match env.docx_save_error with
    | some m => Except.error (PyError.runtimeError m)
    | none => Except.ok (create_pages_document_build cover_letter_text)

/-- `create_pages_document` (main.py lines 90-141): totalized wrapper. -/
def create_pages_document (env : RenderEnv) (cover_letter_text : String) : Bool :=
  match create_pages_document_body env cover_letter_text with
  | Except.ok _ => true
  | Except.error _ => false

/-! ## Destination paths

main.py lines 216-253.  `os.path.join` is modelled for the relevant
POSIX cases. -/

/-- `os.path.join(a, b)` (POSIX, two components). -/
def osPathJoin (a b : String) : String :=
  if pyStartsWith b "/" then b
  else if a = "" then b
  else if pyEndsWith a "/" then a ++ b
  else a ++ "/" ++ b

/-- The `.txt` destination (main.py lines 216-224): the caller-supplied
`--output` name is joined verbatim, otherwise `coverLetter.txt`. -/
def txt_filename (output_dir : String) (output : Option String) : String :=
  match output with
  | some o => osPathJoin output_dir o
  | none => osPathJoin output_dir "coverLetter.txt"

/-- The `.pdf` destination (main.py lines 235-238):
`args.output.replace('.txt', '.pdf').replace('.doc', '.pdf')`. -/
def pdf_filename (output_dir : String) (output : Option String) : String :=
  match output with
  | some o => osPathJoin output_dir (pyReplace (pyReplace o ".txt" ".pdf") ".doc" ".pdf")
  | none => osPathJoin output_dir "coverLetter.pdf"

/-- The `.docx` destination (main.py lines 250-253):
`args.output.replace('.txt', '.docx').replace('.pdf', '.docx')`. -/
def pages_filename (output_dir : String) (output : Option String) : String :=
  match output with
  | some o => osPathJoin output_dir (pyReplace (pyReplace o ".txt" ".docx") ".pdf" ".docx")
  | none => osPathJoin output_dir "coverLetter.docx"

/-! ## Orchestration of one generation run

main.py lines 216-265.  The plain-text write happens first, directly
inside the outer `try`: if `open`/`write` raises, the exception
propagates to the handler on line 263, which prints the error and calls
`sys.exit(1)`, so the PDF and DOCX renderers never run.  PDF (unless
`--no-pdf`) and then DOCX are each attempted through their own
`Bool`-returning wrappers, and a `False` result only prints a failure
message.  Whether each step succeeds is supplied by oracle flags. -/

inductive Format where
  | txt
  | pdf
  | docx
deriving DecidableEq

/-- One attempted format together with its reported outcome. -/
structure RenderAttempt where
  format : Format
  succeeded : Bool
deriving DecidableEq

/-- The observable outcome of `main`: the per-format attempts in the
order they were made, and whether the run died in the outer `except`
(`sys.exit(1)`). -/
structure RunOutcome where
  attempts : List RenderAttempt
  exited_early : Bool
deriving DecidableEq

/-- The rendering portion of `main` (main.py lines 216-265). -/
def mainRun (no_pdf txt_write_ok pdf_ok docx_ok : Bool) : RunOutcome :=
  if txt_write_ok = false then
    { attempts := [{ format := Format.txt, succeeded := false }], exited_early := true }
  else
    let afterTxt : List RenderAttempt := [{ format := Format.txt, succeeded := true }]
    let afterPdf : List RenderAttempt :=
      if no_pdf then afterTxt
      else afterTxt ++ [{ format := Format.pdf, succeeded := pdf_ok }]
    { attempts := afterPdf ++ [{ format := Format.docx, succeeded := docx_ok }],
      exited_early := false }

/-! ## Content source reader

`_read_file_or_text` and `_read_pdf_file`
(cover_letter_generator.py lines 114-159).  The filesystem is an
oracle: which paths are regular files, the page texts PyPDF2 extracts
from a PDF, and the contents of a text file. -/

/-- Filesystem oracle for the reader. -/
structure FileSystem where
  is_file : String → Bool
  pdf_pages : String → List String
  text_content : String → String

/-- `_read_pdf_file` (cover_letter_generator.py lines 149-155):
`text = ""`, then `text += page.extract_text() + "\n"` per page in
order, then `text.strip()`. -/
def read_pdf_file (fs : FileSystem) (pdf_path : String) : String :=
  pyStrip ((fs.pdf_pages pdf_path).foldl (fun text page => text ++ page ++ "\n") "")

/-- `_read_file_or_text` (cover_letter_generator.py lines 114-137):
existing paths are read (PDF extraction for a case-insensitive `.pdf`
suffix, plain read otherwise); anything else is returned verbatim as
literal text. -/
def read_file_or_text (fs : FileSystem) (input_data : String) : String :=
  if fs.is_file input_data then
    if pyEndsWith (pyLower input_data) ".pdf" then read_pdf_file fs input_data
    else fs.text_content input_data
  else input_data

/-! ## Spec-side definitions

These two definitions follow the wording of spec sentences (one the
claim as frozen, one the amended classification) and exist only to be
compared with the source-derived functions above. -/

/-- The contact-block condition exactly as claim C1 words it: at least
one internal newline AND at least one line that starts
(case-insensitively) with one of the four default labels
`email:`, `phone:`, `linkedin:`, `website:`. -/
def claimedContactC1 (g : String) : Bool :=
  g.data.contains '\n' &&
    (pySplit g "\n").any (fun l =>
      (["email:", "phone:", "linkedin:", "website:"] : List String).any
        (fun lab => pyStartsWith (pyLower l) lab))

/-- Substring occurrence, stated by decomposition. -/
def OccursIn (pat s : String) : Prop :=
  ∃ u v : List Char, s.data = u ++ pat.data ++ v

/-! ## Helper lemmas -/

theorem listIsPrefixOf_iff_exists :
    ∀ pat l : List Char, pat.isPrefixOf l = true ↔ ∃ t, l = pat ++ t
  | [], l => by simp [List.isPrefixOf]
  | a :: as, [] => by simp [List.isPrefixOf]
  | a :: as, b :: bs => by
    simp only [List.isPrefixOf, Bool.and_eq_true, beq_iff_eq,
      listIsPrefixOf_iff_exists as bs]
    constructor
    · rintro ⟨rfl, t, rfl⟩
      exact ⟨t, rfl⟩
    · rintro ⟨t, ht⟩
      rw [List.cons_append] at ht
      cases ht
      exact ⟨rfl, t, rfl⟩

theorem listIsInfixOf_iff_exists :
    ∀ pat l : List Char, listIsInfixOf pat l = true ↔ ∃ u v, l = u ++ pat ++ v
  | pat, [] => by
    simp only [listIsInfixOf, List.isEmpty_iff]
    constructor
    · rintro rfl
      exact ⟨[], [], rfl⟩
    · rintro ⟨u, v, huv⟩
      rcases List.append_eq_nil.mp huv.symm with ⟨h1, h2⟩
      rcases List.append_eq_nil.mp h1 with ⟨-, h3⟩
      exact h3
  | pat, c :: rest => by
    simp only [listIsInfixOf, Bool.or_eq_true, listIsPrefixOf_iff_exists,
      listIsInfixOf_iff_exists pat rest]
    constructor
    · rintro (⟨t, ht⟩ | ⟨u, v, huv⟩)
      · exact ⟨[], t, by simpa using ht⟩
      · exact ⟨c :: u, v, by simp [huv]⟩
    · rintro ⟨u, v, huv⟩
      cases u with
      | nil => exact Or.inl ⟨v, by simpa using huv⟩
      | cons x u =>
        rw [List.cons_append, List.cons_append] at huv
        cases huv
        exact Or.inr ⟨u, v, rfl⟩

instance decidableOccursIn (pat s : String) : Decidable (OccursIn pat s) :=
  decidable_of_iff (listIsInfixOf pat.data s.data = true)
    (listIsInfixOf_iff_exists pat.data s.data)

theorem pyIn_iff_occursIn (pat s : String) : pyIn pat s = true ↔ OccursIn pat s :=
  listIsInfixOf_iff_exists pat.data s.data

/-- The heuristic of main.py line 66, characterized by substring
decomposition: an internal newline plus one of exactly the three
keywords `email:`, `phone:`, `linkedin:` occurring anywhere in the
lowercased chunk. -/
theorem isContactGroup_iff (g : String) :
    isContactGroup g = true ↔
      g.data.contains '\n' = true ∧
        ∃ kw ∈ (["email:", "phone:", "linkedin:"] : List String),
          OccursIn kw (pyLower g) := by
  simp only [isContactGroup, contactKeywords, Bool.and_eq_true, List.any_eq_true,
    pyIn_iff_occursIn]

/-- The amended per-chunk classification, following the corrected spec
wording: blank chunks are dropped; a chunk with an internal newline in
which one of `email:`, `phone:`, `linkedin:` occurs (case-insensitive,
anywhere) becomes the contact block; every other chunk becomes a
paragraph of its stripped text. -/
def classifyAmended (g : String) : Option Block :=
  if pyStrip g = "" then none
  else if g.data.contains '\n' = true ∧
      ∃ kw ∈ (["email:", "phone:", "linkedin:"] : List String), OccursIn kw (pyLower g)
  then some (Block.ContactBlock (contactLines g))
  else some (Block.Paragraph (pyStrip g))

/-- The loop of main.py lines 63-76, as a `filterMap` over the chunks. -/
theorem foldl_processGroup (gs : List String) (acc : List Block) :
    gs.foldl processGroup acc =
      acc ++ gs.filterMap
        (fun g => if pyStrip g = "" then none else some (blockOfGroup g)) := by
  induction gs generalizing acc with
  | nil => simp
  | cons g gs ih =>
    rw [List.foldl_cons, ih, List.filterMap_cons, processGroup]
    by_cases h : pyStrip g = "" <;> simp [h]

theorem classify_eq_classifyAmended (g : String) :
    (if pyStrip g = "" then none else some (blockOfGroup g)) = classifyAmended g := by
  rw [classifyAmended]
  by_cases h0 : pyStrip g = ""
  · rw [if_pos h0, if_pos h0]
  · rw [if_neg h0, if_neg h0]
    by_cases hc : g.data.contains '\n' = true ∧
        ∃ kw ∈ (["email:", "phone:", "linkedin:"] : List String), OccursIn kw (pyLower g)
    · rw [if_pos hc, blockOfGroup, if_pos ((isContactGroup_iff g).mpr hc)]
    · rw [if_neg hc, blockOfGroup, if_neg (fun h => hc ((isContactGroup_iff g).mp h))]

theorem segmentPdf_eq_filterMap (text : String) :
    segmentPdf text = (pySplit text "\n\n").filterMap classifyAmended := by
  rw [segmentPdf, foldl_processGroup, List.nil_append]
  exact List.filterMap_congr (fun g _ => classify_eq_classifyAmended g)

theorem isContactBlockB_blockOfGroup (g : String) :
    isContactBlockB (blockOfGroup g) = isContactGroup g := by
  rw [blockOfGroup]
  by_cases h : isContactGroup g <;> simp [h, isContactBlockB]

theorem filterMap_classify_eq_map (gs : List String)
    (hne : ∀ g ∈ gs, pyStrip g ≠ "") :
    gs.filterMap (fun g => if pyStrip g = "" then none else some (blockOfGroup g)) =
      gs.map blockOfGroup := by
  induction gs with
  | nil => rfl
  | cons g gs ih =>
    have hg : pyStrip g ≠ "" := hne g (List.mem_cons_self g gs)
    rw [List.filterMap_cons, List.map_cons, if_neg hg,
      ih (fun x hx => hne x (List.mem_cons_of_mem g hx))]

theorem dropWhile_head_false {α : Type} {p : α → Bool} :
    ∀ l : List α, ∀ x, (l.dropWhile p).head? = some x → p x = false := by
  intro l
  induction l with
  | nil => intro x h; cases h
  | cons a l ih =>
    intro x h
    rw [List.dropWhile_cons] at h
    by_cases ha : p a
    · rw [if_pos ha] at h
      exact ih x h
    · rw [if_neg ha] at h
      cases h
      exact Bool.of_not_eq_true ha

theorem exists_append_dropWhile {α : Type} {p : α → Bool} :
    ∀ l : List α, ∃ t, l = t ++ l.dropWhile p := by
  intro l
  induction l with
  | nil => exact ⟨[], rfl⟩
  | cons a l ih =>
    by_cases ha : p a
    · rcases ih with ⟨t, ht⟩
      exact ⟨a :: t, by rw [List.dropWhile_cons, if_pos ha, List.cons_append, ← ht]⟩
    · exact ⟨[], by rw [List.dropWhile_cons, if_neg ha, List.nil_append]⟩

theorem strip_chars_idem {α : Type} (p : α → Bool) (d : List α) :
    ((((((d.dropWhile p).reverse.dropWhile p).reverse.dropWhile p).reverse.dropWhile p).reverse) : List α) =
      ((d.dropWhile p).reverse.dropWhile p).reverse := by
  have hiR : (((d.dropWhile p).reverse.dropWhile p).reverse).dropWhile p =
      ((d.dropWhile p).reverse.dropWhile p).reverse := by
    cases hRc : ((d.dropWhile p).reverse.dropWhile p).reverse with
    | nil => rfl
    | cons x xs =>
      have hxA : (d.dropWhile p).head? = some x := by
        rcases exists_append_dropWhile (p := p) (d.dropWhile p).reverse with ⟨t, ht⟩
        have hAR : d.dropWhile p =
            ((d.dropWhile p).reverse.dropWhile p).reverse ++ t.reverse := by
          rw [← List.reverse_append, ← ht, List.reverse_reverse]
        rw [hAR, hRc, List.cons_append, List.head?_cons]
      have hx : p x = false := dropWhile_head_false d x hxA
      rw [List.dropWhile_cons, if_neg (by rw [hx]; exact Bool.false_ne_true)]
  rw [hiR, List.reverse_reverse, List.dropWhile_idempotent]

theorem pyStrip_idem (s : String) : pyStrip (pyStrip s) = pyStrip s :=
  String.ext (strip_chars_idem isPySpace s.data)

theorem foldl_strAppend_eq (l : List String) :
    ∀ acc : String, l.foldl (fun a b => a ++ b) acc = acc ++ String.join l := by
  induction l with
  | nil => intro acc; simp [String.join]
  | cons s l ih =>
    intro acc
    rw [List.foldl_cons, ih (acc ++ s)]
    have h1 : String.join (s :: l) = s ++ String.join l := by
      show (s :: l).foldl (fun a b => a ++ b) "" = _
      rw [List.foldl_cons, ih ("" ++ s), String.empty_append]
    rw [h1, String.append_assoc]

theorem join_cons (s : String) (l : List String) :
    String.join (s :: l) = s ++ String.join l := by
  show (s :: l).foldl (fun a b => a ++ b) "" = _
  rw [List.foldl_cons, foldl_strAppend_eq l ("" ++ s), String.empty_append]

theorem foldl_pages_eq_join (pages : List String) :
    ∀ acc : String,
      pages.foldl (fun text page => text ++ page ++ "\n") acc =
        acc ++ String.join (pages.map (fun page => page ++ "\n")) := by
  induction pages with
  | nil => intro acc; simp [String.join]
  | cons p l ih =>
    intro acc
    rw [List.foldl_cons, ih (acc ++ p ++ "\n"), List.map_cons, join_cons]
    simp [String.append_assoc]

/-! ## Claims -/

/-- C1, counterexample to the claim as stated.  The claim's own
condition (a line starting, case-insensitively, with one of the four
default labels including `website:`) disagrees with the code on both
sides: a two-line chunk whose first line starts with `Website:`
satisfies the claimed condition yet is rendered as an ordinary
paragraph, and a chunk whose only label occurrence is mid-line fails
the claimed condition yet is rendered as a contact block. -/
theorem C1_counterexample :
    claimedContactC1 "Website: www.a.com\nHello" = true ∧
    segmentPdf "Website: www.a.com\nHello" =
      [Block.Paragraph "Website: www.a.com\nHello"] ∧
    claimedContactC1 "Reach me\nvia email: a@b.com" = false ∧
    segmentPdf "Reach me\nvia email: a@b.com" =
      [Block.ContactBlock ["Reach me", "via email: a@b.com"]] := by
  decide

/-- C1, amended: a chunk produced by splitting on `"\n\n"` is treated as
a contact block if and only if it contains at least one internal newline
AND one of the three keywords `email:`, `phone:`, `linkedin:` (not
`website:`) occurs as a substring anywhere in the lowercased chunk (not
only at the start of a line); every other non-whitespace chunk becomes
an ordinary paragraph, and whitespace-only chunks are dropped. -/
theorem C1_thm (text : String) :
    segmentPdf text = (pySplit text "\n\n").filterMap classifyAmended :=
  segmentPdf_eq_filterMap text

/-- C2, counterexample to the claim as stated: with two chunks that both
satisfy the contact heuristic, the code turns BOTH into contact blocks,
so the model can contain two `ContactBlock`s; moreover a matching chunk
followed by a plain paragraph yields a `ContactBlock` that is not the
last block.  The claimed first-match tie-break does not exist. -/
theorem C2_counterexample :
    segmentPdf "Email: a@b.com\nPhone: 1\n\nEmail: c@d.com\nPhone: 2" =
      [Block.ContactBlock ["Email: a@b.com", "Phone: 1"],
       Block.ContactBlock ["Email: c@d.com", "Phone: 2"]] ∧
    segmentPdf "Email: a@b.com\nPhone: 1\n\nKind regards" =
      [Block.ContactBlock ["Email: a@b.com", "Phone: 1"],
       Block.Paragraph "Kind regards"] := by
  decide

/-- C2, amended: classification is pointwise — each non-blank chunk is
classified by the heuristic independently of every other chunk, with no
first-only tie-break, so every matching chunk becomes a contact block
(at any position) and the model may contain any number of them. -/
theorem C2_thm (text : String) (gs : List String)
    (h : pySplit text "\n\n" = gs) (hne : ∀ g ∈ gs, pyStrip g ≠ "") :
    (segmentPdf text).length = gs.length ∧
    ∀ i : Nat,
      ((segmentPdf text)[i]?).map isContactBlockB = (gs[i]?).map isContactGroup := by
  have hseg : segmentPdf text = gs.map blockOfGroup := by
    rw [segmentPdf, foldl_processGroup, List.nil_append, h,
      filterMap_classify_eq_map gs hne]
  constructor
  · rw [hseg, List.length_map]
  · intro i
    rw [hseg, List.getElem?_map]
    cases gs[i]? with
    | none => rfl
    | some g => simp [isContactBlockB_blockOfGroup]

/-- C2, witness for the amended theorem at a letter whose two chunks
both match the heuristic. -/
theorem C2_witness :
    (pySplit "Email: a@b.com\nPhone: 1\n\nEmail: c@d.com\nPhone: 2" "\n\n" =
      ["Email: a@b.com\nPhone: 1", "Email: c@d.com\nPhone: 2"]) ∧
    (∀ g ∈ ["Email: a@b.com\nPhone: 1", "Email: c@d.com\nPhone: 2"],
      pyStrip g ≠ "") ∧
    (segmentPdf "Email: a@b.com\nPhone: 1\n\nEmail: c@d.com\nPhone: 2").length = 2 :=
  ⟨by decide, by decide,
    (C2_thm "Email: a@b.com\nPhone: 1\n\nEmail: c@d.com\nPhone: 2"
      ["Email: a@b.com\nPhone: 1", "Email: c@d.com\nPhone: 2"]
      (by decide) (by decide)).1⟩

/-- C3, counterexample to the claim as stated: when the plain-text write
fails, the run exits through the outer handler — the PDF and DOCX
renderers are never attempted, so a plain-text failure is NOT isolated
like the claim says. -/
theorem C3_counterexample :
    (mainRun false false true true).exited_early = true ∧
    (mainRun false false true true).attempts =
      [{ format := Format.txt, succeeded := false }] ∧
    ∀ r ∈ (mainRun false false true true).attempts,
      r.format ≠ Format.pdf ∧ r.format ≠ Format.docx := by
  decide

/-- C3, amended: the plain-text artifact is always attempted first; a
failing plain-text write aborts the run (exit through the outer
handler) with only the plain-text failure reported, while PDF and DOCX
failures are each reported per format and do not prevent the remaining
renderer from running or the run from completing; PDF is attempted
exactly when not suppressed by the no-pdf flag. -/
theorem C3_thm (no_pdf pdf_ok docx_ok : Bool) :
    (mainRun no_pdf false pdf_ok docx_ok).attempts =
      [{ format := Format.txt, succeeded := false }] ∧
    (mainRun no_pdf false pdf_ok docx_ok).exited_early = true ∧
    (mainRun no_pdf true pdf_ok docx_ok).attempts.head? =
      some { format := Format.txt, succeeded := true } ∧
    (mainRun no_pdf true pdf_ok docx_ok).exited_early = false ∧
    ({ format := Format.docx, succeeded := docx_ok } : RenderAttempt) ∈
      (mainRun no_pdf true pdf_ok docx_ok).attempts ∧
    (({ format := Format.pdf, succeeded := pdf_ok } : RenderAttempt) ∈
        (mainRun no_pdf true pdf_ok docx_ok).attempts ↔ no_pdf = false) := by
  cases no_pdf <;> cases pdf_ok <;> cases docx_ok <;> decide

/-- C4, counterexample to the claim as stated: the letter text whose
segmentation is exactly the claimed model is written to the `.txt`
artifact verbatim — the artifact does not carry the `Cover Letter`
title line the claim requires. -/
theorem C4_counterexample :
    segmentPdf "Hello there.\n\nSecond para.\n\nEmail: x@y.com\nPhone: 123" =
      [Block.Paragraph "Hello there.", Block.Paragraph "Second para.",
       Block.ContactBlock ["Email: x@y.com", "Phone: 123"]] ∧
    plainTextArtifact "Hello there.\n\nSecond para.\n\nEmail: x@y.com\nPhone: 123" ≠
      "Cover Letter\n\nHello there.\n\nSecond para.\n\nEmail: x@y.com\nPhone: 123" := by
  decide

/-- C4, amended: the plain-text render writes the letter text verbatim,
with no title line; for the model with paragraphs `Hello there.` and
`Second para.` followed by the contact block, the artifact is exactly
the two paragraphs joined by one blank line followed, after a blank
line, by the contact lines — and nothing else. -/
theorem C4_thm :
    segmentPdf "Hello there.\n\nSecond para.\n\nEmail: x@y.com\nPhone: 123" =
      [Block.Paragraph "Hello there.", Block.Paragraph "Second para.",
       Block.ContactBlock ["Email: x@y.com", "Phone: 123"]] ∧
    plainTextArtifact "Hello there.\n\nSecond para.\n\nEmail: x@y.com\nPhone: 123" =
      "Hello there.\n\nSecond para.\n\nEmail: x@y.com\nPhone: 123" := by
  decide

/-- C5, counterexample to the claim as stated: the left margin is
1.0in (100 hundredths), not 0.8in, and a chunk that looks like contact
information is rendered as ONE justified body paragraph — there is no
left-aligned contact-line role in this renderer. -/
theorem C5_counterexample :
    (create_pages_document_build "Email: a@b.com\nPhone: 1").left_margin ≠ 80 ∧
    (create_pages_document_build "Email: a@b.com\nPhone: 1").right_margin ≠ 80 ∧
    (create_pages_document_build "Email: a@b.com\nPhone: 1").paragraphs =
      [docxTitlePara, docxSpacerPara,
       { text := "Email: a@b.com\nPhone: 1", alignment := DocxAlign.justify,
         bold := false, font_name := "Times New Roman", size_pt := 12 }] := by
  decide

/-- C5, amended: the DOCX renderer sets top and bottom margins to 0.8in
but left and right margins to 1.0in; the title `Cover Letter` is
centered and bold; and EVERY non-blank chunk — contact-looking ones
included — becomes one justified, non-bold body paragraph with
non-empty text (no contact-line treatment). -/
theorem C5_thm (text : String) :
    (create_pages_document_build text).top_margin = 80 ∧
    (create_pages_document_build text).bottom_margin = 80 ∧
    (create_pages_document_build text).left_margin = 100 ∧
    (create_pages_document_build text).right_margin = 100 ∧
    ∃ body,
      (create_pages_document_build text).paragraphs =
        docxTitlePara :: docxSpacerPara :: body ∧
      docxTitlePara.text = "Cover Letter" ∧
      docxTitlePara.alignment = DocxAlign.center ∧
      docxTitlePara.bold = true ∧
      ∀ p ∈ body, p.alignment = DocxAlign.justify ∧ p.bold = false ∧ p.text ≠ "" := by
  refine ⟨rfl, rfl, rfl, rfl, _, rfl, rfl, rfl, rfl, ?_⟩
  intro p hp
  rcases List.mem_filterMap.mp hp with ⟨g, hg, hfg⟩
  by_cases h : pyStrip g = ""
  · rw [if_neg (fun hh => hh h)] at hfg
    cases hfg
  · rw [if_pos h] at hfg
    injection hfg with hfg
    subst hfg
    exact ⟨rfl, rfl, h⟩

/-- C6, counterexample to the claim as stated: with `--output letter.md`
every artifact path is `out/letter.md` — the `.md` extension is NOT
overridden by the canonical `.txt`/`.pdf`/`.docx` extensions, because
the code only substring-replaces `.txt`/`.doc`/`.pdf`. -/
theorem C6_counterexample :
    txt_filename "out" (some "letter.md") = "out/letter.md" ∧
    pdf_filename "out" (some "letter.md") = "out/letter.md" ∧
    pages_filename "out" (some "letter.md") = "out/letter.md" ∧
    pyEndsWith (txt_filename "out" (some "letter.md")) ".txt" = false ∧
    pyEndsWith (pdf_filename "out" (some "letter.md")) ".pdf" = false ∧
    pyEndsWith (pages_filename "out" (some "letter.md")) ".docx" = false := by
  decide

/-- C6, amended: without `--output` the artifacts are
`coverLetter.txt`/`.pdf`/`.docx` under the output directory; with
`--output` the plain-text path joins the supplied name verbatim, and
the PDF/DOCX names are derived only by substring replacement of
`.txt`/`.doc` (resp. `.txt`/`.pdf`) — so whenever those replacements do
not change the name (e.g. a `.md` base), all three artifacts share the
very same path and no canonical extension is applied. -/
theorem C6_thm (dir o : String)
    (h1 : pyReplace (pyReplace o ".txt" ".pdf") ".doc" ".pdf" = o)
    (h2 : pyReplace (pyReplace o ".txt" ".docx") ".pdf" ".docx" = o) :
    txt_filename dir (some o) = osPathJoin dir o ∧
    pdf_filename dir (some o) = osPathJoin dir o ∧
    pages_filename dir (some o) = osPathJoin dir o ∧
    txt_filename dir none = osPathJoin dir "coverLetter.txt" ∧
    pdf_filename dir none = osPathJoin dir "coverLetter.pdf" ∧
    pages_filename dir none = osPathJoin dir "coverLetter.docx" :=
  ⟨rfl, by simp only [pdf_filename]; rw [h1],
    by simp only [pages_filename]; rw [h2], rfl, rfl, rfl⟩

/-- C6, witness for the amended theorem at the `.md` base name. -/
theorem C6_witness :
    (pyReplace (pyReplace "letter.md" ".txt" ".pdf") ".doc" ".pdf" = "letter.md") ∧
    (pyReplace (pyReplace "letter.md" ".txt" ".docx") ".pdf" ".docx" = "letter.md") ∧
    txt_filename "run1" (some "letter.md") = osPathJoin "run1" "letter.md" ∧
    pdf_filename "run1" (some "letter.md") = osPathJoin "run1" "letter.md" :=
  ⟨by decide, by decide,
    (C6_thm "run1" "letter.md" (by decide) (by decide)).1,
    (C6_thm "run1" "letter.md" (by decide) (by decide)).2.1⟩

/-- C7 (confirmed): reading an existing path with a case-insensitive
`.pdf` suffix returns the page texts, in page order, each followed by
exactly one newline, concatenated and finally stripped of leading and
trailing whitespace. -/
theorem C7_thm (fs : FileSystem) (p : String)
    (h1 : fs.is_file p = true)
    (h2 : pyEndsWith (pyLower p) ".pdf" = true) :
    read_file_or_text fs p =
      pyStrip (String.join ((fs.pdf_pages p).map (fun page => page ++ "\n"))) := by
  rw [read_file_or_text, if_pos h1, if_pos h2, read_pdf_file,
    foldl_pages_eq_join (fs.pdf_pages p) "", String.empty_append]

/-- C7, witness: a two-page PDF named with an upper-case extension. -/
theorem C7_witness :
    ((FileSystem.mk (fun s => s == "CV.PDF") (fun _ => ["Page one", "Page two"])
        (fun _ => "")).is_file "CV.PDF" = true) ∧
    (pyEndsWith (pyLower "CV.PDF") ".pdf" = true) ∧
    read_file_or_text
        (FileSystem.mk (fun s => s == "CV.PDF") (fun _ => ["Page one", "Page two"])
          (fun _ => "")) "CV.PDF" =
      pyStrip (String.join
        (((FileSystem.mk (fun s => s == "CV.PDF") (fun _ => ["Page one", "Page two"])
            (fun _ => "")).pdf_pages "CV.PDF").map (fun page => page ++ "\n"))) :=
  ⟨by decide, by decide,
    C7_thm
      (FileSystem.mk (fun s => s == "CV.PDF") (fun _ => ["Page one", "Page two"])
        (fun _ => "")) "CV.PDF" (by decide) (by decide)⟩

/-- C8 (confirmed): an input that is not an existing file is returned
verbatim as literal text; in the model the non-path branch is a plain
return, so no error is possible there. -/
theorem C8_thm (fs : FileSystem) (s : String) (h : fs.is_file s = false) :
    read_file_or_text fs s = s := by
  rw [read_file_or_text, if_neg (by rw [h]; exact Bool.false_ne_true)]

/-- C8, witness: a path that does not exist on the oracle filesystem. -/
theorem C8_witness :
    ((FileSystem.mk (fun _ => false) (fun _ => []) (fun _ => "")).is_file
        "no/such/file.txt" = false) ∧
    read_file_or_text (FileSystem.mk (fun _ => false) (fun _ => []) (fun _ => ""))
        "no/such/file.txt" = "no/such/file.txt" :=
  ⟨by decide,
    C8_thm (FileSystem.mk (fun _ => false) (fun _ => []) (fun _ => ""))
      "no/such/file.txt" (by decide)⟩

/-- C9 (confirmed): a text splitting into chunks that are each
non-whitespace and contain no contact label (none of the four default
labels occurs, case-insensitively, anywhere in them) segments into
exactly one paragraph per chunk, in the original order, with zero
contact blocks; and — for every text whatsoever — no paragraph ever
retained is empty or whitespace-only. -/
theorem C9_thm (text : String) (gs : List String)
    (h : pySplit text "\n\n" = gs)
    (h1 : ∀ g ∈ gs, pyStrip g ≠ "")
    (h2 : ∀ g ∈ gs,
      ∀ lab ∈ (["email:", "phone:", "linkedin:", "website:"] : List String),
        ¬ OccursIn lab (pyLower g)) :
    segmentPdf text = gs.map (fun g => Block.Paragraph (pyStrip g)) ∧
    ∀ t : String, ∀ b ∈ segmentPdf t, ∀ s : String,
      b = Block.Paragraph s → s ≠ "" ∧ pyStrip s ≠ "" := by
  constructor
  · have hnc : ∀ g ∈ gs, isContactGroup g = false := by
      intro g hg
      rcases Bool.eq_false_or_eq_true (isContactGroup g) with hT | hF
      · rcases (isContactGroup_iff g).mp hT with ⟨-, kw, hkw, hocc⟩
        refine absurd hocc (h2 g hg kw ?_)
        simp only [List.mem_cons, List.not_mem_nil, or_false] at hkw
        rcases hkw with rfl | rfl | rfl <;> decide
      · exact hF
    rw [segmentPdf, foldl_processGroup, List.nil_append, h,
      filterMap_classify_eq_map gs h1]
    apply List.map_congr_left
    intro g hg
    rw [blockOfGroup, if_neg (by rw [hnc g hg]; exact Bool.false_ne_true)]
  · intro t b hb s hbs
    rw [segmentPdf, foldl_processGroup, List.nil_append] at hb
    rcases List.mem_filterMap.mp hb with ⟨g, hg, hfg⟩
    by_cases hgs : pyStrip g = ""
    · rw [if_pos hgs] at hfg
      cases hfg
    · rw [if_neg hgs] at hfg
      injection hfg with hfg
      subst hfg
      rw [blockOfGroup] at hbs
      by_cases hc : isContactGroup g
      · rw [if_pos hc] at hbs
        cases hbs
      · rw [if_neg hc] at hbs
        injection hbs with hbs
        subst hbs
        exact ⟨hgs, by rw [pyStrip_idem]; exact hgs⟩

/-- C9, witness: two plain chunks, no contact labels. -/
theorem C9_witness :
    (pySplit "Hello there.\n\nBest wishes" "\n\n" =
      ["Hello there.", "Best wishes"]) ∧
    (∀ g ∈ ["Hello there.", "Best wishes"], pyStrip g ≠ "") ∧
    segmentPdf "Hello there.\n\nBest wishes" =
      [Block.Paragraph "Hello there.", Block.Paragraph "Best wishes"] :=
  ⟨by decide, by decide,
    (C9_thm "Hello there.\n\nBest wishes" ["Hello there.", "Best wishes"]
      (by decide) (by decide) (by decide)).1⟩

/-- C10 (confirmed): the two document renderers are total `Bool`-valued
boundaries over the effect oracle — `true` exactly when the body built
(and saved) the artifact, `false` exactly when the body raised
(backend import failure or any construction error); every body outcome
is mapped to a `Bool`, so no exception escapes to the caller. -/
theorem C10_thm (env : RenderEnv) (text : String) :
    (create_pdf_cover_letter env text = true ↔
      ∃ story, create_pdf_body env text = Except.ok story) ∧
    (create_pdf_cover_letter env text = false ↔
      ∃ err, create_pdf_body env text = Except.error err) ∧
    (create_pages_document env text = true ↔
      ∃ doc, create_pages_document_body env text = Except.ok doc) ∧
    (create_pages_document env text = false ↔
      ∃ err, create_pages_document_body env text = Except.error err) := by
  cases hb : create_pdf_body env text <;>
    cases hd : create_pages_document_body env text <;>
      simp [create_pdf_cover_letter, create_pages_document, hb, hd]

end CoverLetterGen
